import Mathlib

/-!
Verification development for the STL model-analyzer core.

The source is a TypeScript module whose analysis core consists of the pure
functions `buildEdgeMap`, `calculateFaceNormals`, `analyzeEdges`,
`analyzeCavities`, `analyzeChannels`, `analyzeSurfaceFeatures`,
`analyzeWallThickness`, `analyzeGeometricComplexity`, `analyzeSTLGeometry`
and `validateModel`, operating on a flat triangle soup (a buffer of 3-D
points, three consecutive points per triangle).

Embedding conventions:
* JavaScript IEEE-754 doubles are idealized as exact numbers: input
  coordinates and all arithmetic that stays in +,-,*,/ are `ℚ`; values that
  pass through `Math.sqrt` / trigonometry live in `ℝ`.
* Division is the total division of `ℚ`/`ℝ` (x / 0 = 0); in JavaScript the
  corresponding expressions produce `Infinity`/`NaN` instead of raising, so
  in both semantics no error is raised.  The `Infinity` initial values of
  running minima are modelled by `Option` (`none` = `Infinity`).
* JavaScript `Map` (insertion-ordered) is modelled as an association list
  in insertion order.
* `Math.random()` in the wall-thickness sampler is modelled by an injected
  index generator `rand : ℕ → ℕ` (the spec requires the sampler to be
  seedable); it is unused by every theorem below that quantifies over it.
* The user-facing `message` / `details` strings of validation results are
  presentation text with no logic; they are omitted from the embedded
  `ValidationResult` (its `name`, `passed` and `severity` fields are kept
  verbatim).  Likewise `GUIDELINES.channelSpecs`, which is referenced only
  inside display strings.
-/

/-- A 3-D point / vector with exact rational coordinates (embeds
`THREE.Vector3` values built from the mesh buffer). -/
structure Vec3 where
  x : ℚ
  y : ℚ
  z : ℚ
deriving DecidableEq, Repr

/-- A 3-D vector with real coordinates, for values obtained through
`Math.sqrt` (normalized vectors, etc.). -/
structure RVec3 where
  x : ℝ
  y : ℝ
  z : ℝ

def qzero : Vec3 := ⟨0, 0, 0⟩

def rzero : RVec3 := ⟨0, 0, 0⟩

def Vec3.sub (a b : Vec3) : Vec3 := ⟨a.x - b.x, a.y - b.y, a.z - b.z⟩

def Vec3.add (a b : Vec3) : Vec3 := ⟨a.x + b.x, a.y + b.y, a.z + b.z⟩

def Vec3.divScalar (a : Vec3) (s : ℚ) : Vec3 := ⟨a.x / s, a.y / s, a.z / s⟩

/-- `THREE.Vector3.cross` on exact coordinates. -/
def Vec3.cross (a b : Vec3) : Vec3 :=
  ⟨a.y * b.z - a.z * b.y, a.z * b.x - a.x * b.z, a.x * b.y - a.y * b.x⟩

def Vec3.dot (a b : Vec3) : ℚ := a.x * b.x + a.y * b.y + a.z * b.z

/-- Coordinatewise coercion `ℚ → ℝ`. -/
def Vec3.toR (a : Vec3) : RVec3 := ⟨(a.x : ℝ), (a.y : ℝ), (a.z : ℝ)⟩

noncomputable def RVec3.dot (a b : RVec3) : ℝ := a.x * b.x + a.y * b.y + a.z * b.z

noncomputable def RVec3.divScalar (a : RVec3) (s : ℝ) : RVec3 := ⟨a.x / s, a.y / s, a.z / s⟩

/-- `THREE.Vector3.length`: Euclidean norm. -/
noncomputable def RVec3.length (a : RVec3) : ℝ :=
  Real.sqrt (a.x * a.x + a.y * a.y + a.z * a.z)

/-- `THREE.Vector3.normalize()`: `divideScalar(length || 1)` — a zero vector
is divided by 1 and therefore stays the zero vector (no error is raised). -/
noncomputable def RVec3.normalize (a : RVec3) : RVec3 :=
  a.divScalar (if a.length = 0 then 1 else a.length)

/-- `Vector3.length` of an exact vector (the value is real). -/
noncomputable def Vec3.lengthR (a : Vec3) : ℝ := a.toR.length

/-- `THREE.Vector3.distanceTo`. -/
noncomputable def Vec3.distanceTo (a b : Vec3) : ℝ := (a.sub b).lengthR

/-- Triangle `i` of the soup: points `3i`, `3i+1`, `3i+2` (out-of-range
reads default to the origin; the pipeline never reads out of range on a
well-formed soup). -/
def getTri (p : List Vec3) (i : ℕ) : Vec3 × Vec3 × Vec3 :=
  (p.getD (3 * i) qzero, p.getD (3 * i + 1) qzero, p.getD (3 * i + 2) qzero)

/-- Number of triangles: `positions.count / 3` (floor). -/
def triCount (p : List Vec3) : ℕ := p.length / 3

/-! ### Edge adjacency builder (`buildEdgeMap`) -/

/-- `Number.prototype.toFixed(4)` idealized on exact rationals: decimal
rendering of the value rounded to 4 fractional digits (round to nearest,
half away from zero).  The sign is taken from the original value, so a tiny
negative value renders as `-0.0000` exactly as in JavaScript. -/
def toFixed4 (q : ℚ) : String :=
  let n : ℕ := (⌊|q| * 10000 + 1 / 2⌋).toNat
  let ip := n / 10000
  let fp := n % 10000
  let fs := toString fp
  (if q < 0 then "-" else "") ++ toString ip ++ "." ++
    String.mk (List.replicate (4 - fs.length) '0') ++ fs

/-- The per-vertex part of the edge key:
`` `${x.toFixed(4)},${y.toFixed(4)},${z.toFixed(4)}` ``. -/
def coordKey (v : Vec3) : String :=
  toFixed4 v.x ++ "," ++ toFixed4 v.y ++ "," ++ toFixed4 v.z

/-- `makeEdgeKey`: canonical, order-independent edge identity
(`key1 < key2 ? key1-key2 : key2-key1`).  The JavaScript `<` on strings is
lexicographic character comparison; it is phrased here on the underlying
character lists (`String.data`), the same order, so that it evaluates by
structural recursion. -/
def makeEdgeKey (v1 v2 : Vec3) : String :=
  let key1 := coordKey v1
  let key2 := coordKey v2
  if key1.data < key2.data then key1 ++ "-" ++ key2 else key2 ++ "-" ++ key1

/-- One entry of the edge adjacency map: incident triangle indices (in
input order) and the edge's two endpoint positions. -/
structure EdgeEntry where
  faces : List ℕ
  vertices : Vec3 × Vec3
deriving DecidableEq, Repr

/-- One `edgeMap` update: create the entry on first sight of the key, then
push the incident triangle index. -/
def edgePush (m : List (String × EdgeEntry)) (key : String) (va vb : Vec3)
    (i : ℕ) : List (String × EdgeEntry) :=
  if m.any (fun e => e.1 = key) then
    m.map (fun e =>
      if e.1 = key then (e.1, { e.2 with faces := e.2.faces ++ [i] }) else e)
  else
    m ++ [(key, { faces := [i], vertices := (va, vb) })]

/-- The three directed edges of triangle `i`, in source order. -/
def triEdges (p : List Vec3) (i : ℕ) : List (Vec3 × Vec3) :=
  let t := getTri p i
  [(t.1, t.2.1), (t.2.1, t.2.2), (t.2.2, t.1)]

/-- `buildEdgeMap`: fold every triangle's three edges into the
insertion-ordered adjacency map. -/
def buildEdgeMap (p : List Vec3) : List (String × EdgeEntry) :=
  (List.range (triCount p)).foldl
    (fun m i =>
      (triEdges p i).foldl
        (fun m e => edgePush m (makeEdgeKey e.1 e.2) e.1 e.2 i) m)
    []

/-- Entry lookup in the edge map (JavaScript `Map.get`). -/
def lookupEdge (m : List (String × EdgeEntry)) (key : String) :
    Option EdgeEntry :=
  (m.find? (fun e => e.1 = key)).map (fun e => e.2)

/-! ### Face normals (`calculateFaceNormals`) -/

/-- `calculateFaceNormals`: per triangle, cross the two edge vectors from
vertex 0 and normalize.  The cross product of rational points is exact; only
the normalization introduces real values. -/
noncomputable def calculateFaceNormals (p : List Vec3) : List RVec3 :=
  (List.range (triCount p)).map (fun i =>
    let t := getTri p i
    let edge1 := t.2.1.sub t.1
    let edge2 := t.2.2.sub t.1
    ((edge1.cross edge2).toR).normalize)

/-! ### Edge & curvature analyzer (`analyzeEdges`) -/

structure EdgeAnalysis where
  totalEdges : ℕ
  sharpEdges : ℕ
  sharpEdgeAngles : List ℝ
  estimatedMinCurvatureRadius : ℝ
  tJunctionCount : ℕ

/-- Dihedral angle in degrees:
`180 - Math.acos(Math.min(1, Math.max(-1, dot))) * (180 / Math.PI)`. -/
noncomputable def dihedralAngle (n1 n2 : RVec3) : ℝ :=
  180 - Real.arccos (min 1 (max (-1) (n1.dot n2))) * (180 / Real.pi)

/-- Estimated curvature radius of a sharp edge:
`edgeLength / (2 * Math.sin((90 - dihedralAngle) * Math.PI / 360))`. -/
noncomputable def estRadius (edgeLength dihedral : ℝ) : ℝ :=
  edgeLength / (2 * Real.sin ((90 - dihedral) * Real.pi / 360))

/-- The two incident normals of an edge entry
(`faceNormals[edge.faces[0]]`, `faceNormals[edge.faces[1]]`). -/
noncomputable def entryNormals (normals : List RVec3) (e : EdgeEntry) :
    RVec3 × RVec3 :=
  (normals.getD (e.faces.getD 0 0) rzero, normals.getD (e.faces.getD 1 0) rzero)

/-- Dihedral angle of an edge entry. -/
noncomputable def entryAngle (normals : List RVec3) (e : EdgeEntry) : ℝ :=
  dihedralAngle (entryNormals normals e).1 (entryNormals normals e).2

/-- Edge length of an entry. -/
noncomputable def entryLength (e : EdgeEntry) : ℝ :=
  e.vertices.1.distanceTo e.vertices.2

/-- Estimated curvature radius of an edge entry. -/
noncomputable def entryRadius (normals : List RVec3) (e : EdgeEntry) : ℝ :=
  estRadius (entryLength e) (entryAngle normals e)

/-- Accumulator of the `edgeMap.forEach` loop in `analyzeEdges`
(`minR = none` models the `Infinity` starting value). -/
structure EdgeAccum where
  sharp : ℕ
  angles : List ℝ
  tj : ℕ
  minR : Option ℝ

/-- `Math.min(minCurvatureRadius, estimatedRadius)` against a running
minimum that starts at `Infinity` (= `none`). -/
noncomputable def optPush (o : Option ℝ) (r : ℝ) : Option ℝ :=
  some (match o with
        | none => r
        | some m => min m r)

open Classical in
/-- One iteration of the `edgeMap.forEach` loop of `analyzeEdges`. -/
noncomputable def edgeStep (normals : List RVec3) (acc : EdgeAccum)
    (e : String × EdgeEntry) : EdgeAccum :=
  let acc1 := if 3 ≤ e.2.faces.length then { acc with tj := acc.tj + 1 } else acc
  if e.2.faces.length = 2 then
    let d := entryAngle normals e.2
    if d < 90 then
      { acc1 with
        sharp := acc1.sharp + 1
        angles := acc1.angles ++ [d]
        minR := optPush acc1.minR (entryRadius normals e.2) }
    else acc1
  else acc1

/-- `analyzeEdges`: rebuild the edge map, fold the classification loop over
it, and read the results off the accumulator (`Infinity ↦ 0` sentinel). -/
noncomputable def analyzeEdges (p : List Vec3) (faceNormals : List RVec3) :
    EdgeAnalysis :=
  let edgeMap := buildEdgeMap p
  let a := edgeMap.foldl (edgeStep faceNormals) ⟨0, [], 0, none⟩
  { totalEdges := edgeMap.length
    sharpEdges := a.sharp
    sharpEdgeAngles := a.angles
    estimatedMinCurvatureRadius := a.minR.getD 0
    tJunctionCount := a.tj }

/-! ### Bounding box -/

/-- `THREE.Box3` after `computeBoundingBox`: `none` is the empty box (the
three.js empty box has `min = +∞`, `max = -∞`). -/
def Box := Option (Vec3 × Vec3)

def vmin (a b : Vec3) : Vec3 := ⟨min a.x b.x, min a.y b.y, min a.z b.z⟩

def vmax (a b : Vec3) : Vec3 := ⟨max a.x b.x, max a.y b.y, max a.z b.z⟩

/-- `geometry.computeBoundingBox()`: expand an (initially empty) box by
every point of the buffer. -/
def computeBB (p : List Vec3) : Box :=
  p.foldl (fun b v =>
    match b with
    | none => some (v, v)
    | some (lo, hi) => some (vmin lo v, vmax hi v)) none

/-- `Box3.getSize`: `max - min`, or the zero vector for the empty box. -/
def bbSize (b : Box) : Vec3 :=
  match b with
  | none => qzero
  | some (lo, hi) => hi.sub lo

/-- `Box3.getCenter`: `(min + max) / 2`, or the zero vector for the empty
box. -/
def bbCenter (b : Box) : Vec3 :=
  match b with
  | none => qzero
  | some (lo, hi) => (lo.add hi).divScalar 2

/-! ### Cavity analyzer (`analyzeCavities`) -/

structure CavityAnalysis where
  potentialCavities : ℕ
  boundaryLoops : ℕ
  estimatedHoleDepths : List ℚ
  blindHoleCount : ℕ
  throughHoleCount : ℕ
deriving DecidableEq, Repr

/-- Centroid of triangle `i` (`(v0 + v1 + v2) / 3`). -/
def centroid (p : List Vec3) (i : ℕ) : Vec3 :=
  let t := getTri p i
  ((t.1.add t.2.1).add t.2.2).divScalar 3

/-- The concave-region test of `analyzeCavities`: the triangle's normal,
dotted with the normalized direction from its centroid to the bounding-box
center, exceeds 0.7. -/
noncomputable def isConcave (p : List Vec3) (faceNormals : List RVec3)
    (boundingBox : Box) (i : ℕ) : Prop :=
  (faceNormals.getD i rzero).dot
    (((bbCenter boundingBox).sub (centroid p i)).toR.normalize) > 7 / 10

open Classical in
/-- Number of triangles flagged by the concave-region loop. -/
noncomputable def concaveRegions (p : List Vec3) (faceNormals : List RVec3)
    (boundingBox : Box) : ℕ :=
  (List.range (triCount p)).countP
    (fun i => decide (isConcave p faceNormals boundingBox i))

/-- Number of boundary edges (entries with exactly one incident face). -/
def boundaryEdges (p : List Vec3) : ℕ :=
  (buildEdgeMap p).countP (fun e => e.2.faces.length = 1)

/-- `Math.min(size.x, size.y, size.z)` of the bounding-box size. -/
def minBBDim (boundingBox : Box) : ℚ :=
  min (bbSize boundingBox).x (min (bbSize boundingBox).y (bbSize boundingBox).z)

/-- `analyzeCavities`. -/
noncomputable def analyzeCavities (p : List Vec3) (faceNormals : List RVec3)
    (boundingBox : Box) : CavityAnalysis :=
  let be := boundaryEdges p
  let concave := concaveRegions p faceNormals boundingBox
  let estimatedHoleDepths :=
    if 0 < concave then [minBBDim boundingBox * (3 / 10)] else []
  { potentialCavities := concave / 10
    boundaryLoops := be / 3
    estimatedHoleDepths := estimatedHoleDepths
    blindHoleCount := be / 6
    throughHoleCount := be / 12 }

/-! ### Channel analyzer (`analyzeChannels`) -/

structure ChannelAnalysis where
  potentialChannels : ℕ
  estimatedDiameters : List ℚ
  estimatedDepths : List ℚ
  straightChannels : ℕ
  curvedChannels : ℕ

/-- Indices visited by a `for (i = 0; i < n; i += step)` loop. -/
def strideRange (n step : ℕ) : List ℕ :=
  (List.range ((n + step - 1) / step)).map (fun k => k * step)

/-- The tubular-surface test of `analyzeChannels`: horizontal normal
component above 0.8 and vertical component magnitude below 0.3. -/
noncomputable def isTubular (faceNormals : List RVec3) (i : ℕ) : Prop :=
  let normal := faceNormals.getD i rzero
  Real.sqrt (normal.x * normal.x + normal.y * normal.y) > 8 / 10 ∧
    |normal.z| < 3 / 10

open Classical in
/-- Tubular samples counted by the every-10th-triangle loop. -/
noncomputable def tubularRegions (p : List Vec3) (faceNormals : List RVec3) : ℕ :=
  (strideRange (triCount p) 10).countP
    (fun i => decide (isTubular faceNormals i))

/-- `analyzeChannels`.  The `normalVariance` array is declared in the source
and never written to; it is kept verbatim (an empty list), which is what
makes the curved branch dead. -/
noncomputable def analyzeChannels (p : List Vec3) (faceNormals : List RVec3)
    (boundingBox : Box) : ChannelAnalysis :=
  let size := bbSize boundingBox
  let tubular := tubularRegions p faceNormals
  let normalVariance : List ℝ := []
  let estimatedDiameters :=
    if 5 < tubular then [size.x * (1 / 10), size.y * (1 / 10)] else []
  let estimatedDepths := if 5 < tubular then [size.z * (1 / 2)] else []
  let curvedTubes : ℕ :=
    if 10 < tubular then (if 0 < normalVariance.length then 1 else 0) else 0
  let straightTubes : ℕ :=
    if 10 < tubular then (if 0 < normalVariance.length then 0 else 1) else 0
  { potentialChannels := tubular / 20
    estimatedDiameters := estimatedDiameters
    estimatedDepths := estimatedDepths
    straightChannels := straightTubes
    curvedChannels := curvedTubes }

/-! ### Surface feature analyzer (`analyzeSurfaceFeatures`) -/

structure SurfaceFeatureAnalysis where
  heightVariations : List ℚ
  potentialReliefs : ℕ
  potentialEngravings : ℕ
  minFeatureWidth : ℝ
  maxFeatureHeight : ℚ

/-- Accumulator of the height-sampling loop: previous height, recorded
variations, relief/engraving tallies, maximum variation. -/
structure HeightAccum where
  prev : ℚ
  vars : List ℚ
  relief : ℕ
  engraving : ℕ
  maxH : ℚ

/-- One step of the height-sampling loop (sample = first vertex of triangle
`i`, height = its `z` coordinate). -/
def heightStep (p : List Vec3) (acc : HeightAccum) (i : ℕ) : HeightAccum :=
  let v := p.getD (i * 3) qzero
  let height := v.z
  let variation := |height - acc.prev|
  let acc1 :=
    if 1 / 10 < variation then
      let acc2 := { acc with vars := acc.vars ++ [variation] }
      if 2 < variation then
        if acc.prev < height then
          { acc2 with relief := acc2.relief + 1, maxH := max acc2.maxH variation }
        else
          { acc2 with engraving := acc2.engraving + 1,
                      maxH := max acc2.maxH variation }
      else acc2
    else acc
  { acc1 with prev := height }

open Classical in
/-- `analyzeSurfaceFeatures`: height-variation sampling over the first
`min(T, 1000)` triangles with stride 3, and a minimum-edge-length scan over
the first `min(T, 500)` triangles (noise floor 0.01).  The threshold `2` in
the height loop is `GUIDELINES.minCharacterHeight * 0.5`. -/
noncomputable def analyzeSurfaceFeatures (p : List Vec3) (boundingBox : Box) :
    SurfaceFeatureAnalysis :=
  let T := triCount p
  let a := (strideRange (min T 1000) 3).foldl (heightStep p) ⟨0, [], 0, 0, 0⟩
  let minWidth := (List.range (min T 500)).foldl
    (fun (mw : Option ℝ) i =>
      let t := getTri p i
      let edgeLength := t.1.distanceTo t.2.1
      if (1 / 100 : ℝ) < edgeLength then
        some (match mw with
              | none => edgeLength
              | some m => min m edgeLength)
      else mw)
    none
  { heightVariations := a.vars
    potentialReliefs := a.relief / 5
    potentialEngravings := a.engraving / 5
    minFeatureWidth := minWidth.getD 0
    maxFeatureHeight := a.maxH }

/-! ### Wall thickness sampler (`analyzeWallThickness`) -/

structure WallThicknessAnalysis where
  minThickness : ℝ
  maxThickness : ℝ
  avgThickness : ℝ
  samples : List ℝ
  thinAreas : ℕ

open Classical in
/-- One thickness sample: the nearest opposite-facing triangle centroid
(every 5th triangle, skipping the source, opposition test
`dot ≤ -0.5` i.e. not `> -0.5`, noise floor 0.1). -/
noncomputable def thicknessSample (p : List Vec3) (faceNormals : List RVec3)
    (triIndex : ℕ) : Option ℝ :=
  let c := centroid p triIndex
  let normal := faceNormals.getD triIndex rzero
  (strideRange (triCount p) 5).foldl
    (fun (minDist : Option ℝ) i =>
      if i = triIndex then minDist
      else if -(1 / 2) < normal.dot (faceNormals.getD i rzero) then minDist
      else
        let dist := c.distanceTo (centroid p i)
        if (match minDist with
            | none => True
            | some m => dist < m) ∧ (1 / 10 : ℝ) < dist
        then some dist else minDist)
    none

open Classical in
/-- `analyzeWallThickness`.  `rand s` models the random triangle index
`Math.floor(Math.random() * triangleCount)` drawn at sample `s`; the spec
requires this source of randomness to be injectable. -/
noncomputable def analyzeWallThickness (rand : ℕ → ℕ) (p : List Vec3)
    (faceNormals : List RVec3) (boundingBox : Box) : WallThicknessAnalysis :=
  let T := triCount p
  let sampleCount := min 100 (T / 10)
  let samples0 := (List.range sampleCount).foldl
    (fun (samples : List ℝ) s =>
      match thicknessSample p faceNormals (rand s) with
      | some d => if 0 < d then samples ++ [d] else samples
      | none => samples)
    []
  let samples1 :=
    if samples0.length = 0 then [((minBBDim boundingBox : ℚ) * (1 / 10) : ℝ)]
    else samples0
  let samples := samples1.mergeSort (fun a b => decide (a ≤ b))
  { minThickness := samples.getD 0 0
    maxThickness := samples.getD (samples.length - 1) 0
    avgThickness := samples.sum / samples.length
    samples := samples
    thinAreas := (samples.filter (fun s => decide (s < 1))).length }

/-! ### Geometric complexity analyzer (`analyzeGeometricComplexity`) -/

structure GeometricComplexity where
  triangleDensity : ℝ
  surfaceCurvatureVariance : ℝ
  componentCount : ℕ
  genus : ℕ
  hasFlatBase : Bool
  flatBaseArea : ℝ
  flatBaseNormal : Option RVec3

/-- Area of triangle `i`: half the cross-product magnitude of its two edge
vectors. -/
noncomputable def triArea (p : List Vec3) (i : ℕ) : ℝ :=
  let t := getTri p i
  ((t.2.1.sub t.1).cross (t.2.2.sub t.1)).lengthR * (1 / 2)

/-- Normal bin key: each component scaled by 10 and rounded
(`Math.round`, i.e. half toward `+∞`).  The source renders the integer
triple as a string, an injective encoding, so the triple itself is used. -/
noncomputable def binKey (n : RVec3) : ℤ × ℤ × ℤ :=
  (round (n.x * 10), round (n.y * 10), round (n.z * 10))

/-- Bin update of the flat-base detection: accumulate area per rounded
normal direction, keeping the first normal seen for the bin. -/
noncomputable def binPush (bins : List ((ℤ × ℤ × ℤ) × (ℝ × RVec3)))
    (key : ℤ × ℤ × ℤ) (area : ℝ) (normal : RVec3) :
    List ((ℤ × ℤ × ℤ) × (ℝ × RVec3)) :=
  if bins.any (fun b => b.1 = key) then
    bins.map (fun b => if b.1 = key then (b.1, (b.2.1 + area, b.2.2)) else b)
  else bins ++ [(key, (area, normal))]

open Classical in
/-- `analyzeGeometricComplexity`. -/
noncomputable def analyzeGeometricComplexity (p : List Vec3)
    (faceNormals : List RVec3) (boundingBox : Box) (surfaceArea : ℝ) :
    GeometricComplexity :=
  let T := triCount p
  let triangleDensity := (T : ℝ) / surfaceArea
  let sums := (List.range' 1 (faceNormals.length - 1)).foldl
    (fun (su : ℝ × ℝ) i =>
      let angleDiff :=
        1 - (faceNormals.getD i rzero).dot (faceNormals.getD (i - 1) rzero)
      (su.1 + angleDiff, su.2 + angleDiff * angleDiff))
    (0, 0)
  let avgCurvature := sums.1 / faceNormals.length
  let curvatureVariance :=
    sums.2 / faceNormals.length - avgCurvature * avgCurvature
  let bins := (List.range T).foldl
    (fun bins i =>
      let normal := faceNormals.getD i rzero
      binPush bins (binKey normal) (triArea p i) normal)
    []
  let base := bins.foldl
    (fun (st : ℝ × Option RVec3 × Bool) b =>
      if st.1 < b.2.1 ∧ (b.2.2.y < -(9 / 10) ∨ b.2.2.z < -(9 / 10)) then
        (b.2.1, some b.2.2, true)
      else st)
    (0, none, false)
  let be := boundaryEdges p
  { triangleDensity := triangleDensity
    surfaceCurvatureVariance := curvatureVariance
    componentCount := 1
    genus := be / 6 - 1
    hasFlatBase := base.2.2
    flatBaseArea := base.1
    flatBaseNormal := base.2.1 }

/-! ### Entry point (`analyzeSTLGeometry`) -/

def RVec3.add (a b : RVec3) : RVec3 := ⟨a.x + b.x, a.y + b.y, a.z + b.z⟩

structure Dimensions where
  length : ℚ
  width : ℚ
  height : ℚ
deriving DecidableEq, Repr

/-- `{ x, y, z }` of the normal-direction distribution. -/
structure NormalDistribution where
  x : ℝ
  y : ℝ
  z : ℝ

/-- The analysis result bundle.  The `geometry` field of the source (an
opaque handle to the input buffer, echoed back for rendering) is omitted;
every derived metric is kept. -/
structure ModelData where
  dimensions : Dimensions
  volume : ℚ
  surfaceArea : ℝ
  triangleCount : ℕ
  vertexCount : ℕ
  edgeCount : ℕ
  boundingBox : Box
  normalDistribution : NormalDistribution
  edgeAnalysis : EdgeAnalysis
  cavityAnalysis : CavityAnalysis
  channelAnalysis : ChannelAnalysis
  surfaceFeatures : SurfaceFeatureAnalysis
  wallThickness : WallThicknessAnalysis
  geometricComplexity : GeometricComplexity

/-- Accumulator of the bulk-metrics loop: signed volume sum, surface area
sum, sum of normalized cross products. -/
structure BulkAccum where
  volume : ℚ
  surfaceArea : ℝ
  normalSum : RVec3

/-- One iteration of the bulk-metrics loop (`i` is the buffer index of the
triangle's first vertex): `cross = (pC - pB) × (pA - pB)` feeds both the
area term and (normalized) the normal sum; the volume term is
`pA · (pB × pC) / 6`. -/
noncomputable def bulkStep (p : List Vec3) (acc : BulkAccum) (i : ℕ) :
    BulkAccum :=
  let pA := p.getD i qzero
  let pB := p.getD (i + 1) qzero
  let pC := p.getD (i + 2) qzero
  let cross := (pC.sub pB).cross (pA.sub pB)
  { volume := acc.volume + pA.dot (pB.cross pC) / 6
    surfaceArea := acc.surfaceArea + cross.lengthR * (1 / 2)
    normalSum := acc.normalSum.add (cross.toR.normalize) }

/-- `analyzeSTLGeometry`: the single analysis entry point.  Note that it
performs no validation of the point buffer: every input, including the
empty soup, flows through the bulk loop and all six analyzers, and a full
`ModelData` is returned.  (For the empty soup the JavaScript original
produces `NaN` for the `0 / 0` ratios below, where the exact embedding
yields `0`; in both semantics no error is raised and a bundle is
returned.) -/
noncomputable def analyzeSTLGeometry (rand : ℕ → ℕ) (p : List Vec3) :
    ModelData :=
  let boundingBox := computeBB p
  let size := bbSize boundingBox
  let triangleCount := triCount p
  let bulk := (strideRange p.length 3).foldl (bulkStep p) ⟨0, 0, rzero⟩
  let volume := |bulk.volume|
  let normalDistribution : NormalDistribution :=
    ⟨|bulk.normalSum.x| / triangleCount, |bulk.normalSum.y| / triangleCount,
      |bulk.normalSum.z| / triangleCount⟩
  let faceNormals := calculateFaceNormals p
  let edgeMap := buildEdgeMap p
  { dimensions := ⟨size.x, size.y, size.z⟩
    volume := volume
    surfaceArea := bulk.surfaceArea
    triangleCount := triangleCount
    vertexCount := p.length
    edgeCount := edgeMap.length
    boundingBox := boundingBox
    normalDistribution := normalDistribution
    edgeAnalysis := analyzeEdges p faceNormals
    cavityAnalysis := analyzeCavities p faceNormals boundingBox
    channelAnalysis := analyzeChannels p faceNormals boundingBox
    surfaceFeatures := analyzeSurfaceFeatures p boundingBox
    wallThickness := analyzeWallThickness rand p faceNormals boundingBox
    geometricComplexity :=
      analyzeGeometricComplexity p faceNormals boundingBox bulk.surfaceArea }

/-! ### Guideline table and validation engine (`validateModel`) -/

structure MaxDims where
  length : ℚ
  width : ℚ
  height : ℚ

structure MinMax where
  min : ℚ
  max : ℚ

structure DrainHole where
  min : ℚ
  recommended : ℚ

/-- The constant guideline table (`channelSpecs`, used only inside display
strings, is omitted; its diameter bands are hard-coded in check 6 of
`validateModel` exactly as in the source). -/
structure Guidelines where
  maxDimensions : MaxDims
  wallThickness : MinMax
  minGap : ℚ
  aspectRatioMax : ℚ
  aspectRatioRecommended : ℚ
  minCurvatureRadius : ℚ
  minTJunctionRadius : ℚ
  minCavityWidth : ℚ
  cavityDepthRatio : MinMax
  minCharacterHeight : ℚ
  minLineWidth : ℚ
  minThreadSize : ℚ
  hollowWallThickness : ℚ
  drainHoleDiameter : DrainHole

def GUIDELINES : Guidelines :=
  { maxDimensions := ⟨50, 80, 40⟩
    wallThickness := ⟨1, 15⟩
    minGap := 1
    aspectRatioMax := 10
    aspectRatioRecommended := 5
    minCurvatureRadius := 1 / 2
    minTJunctionRadius := 2
    minCavityWidth := 4 / 10
    cavityDepthRatio := ⟨2, 4⟩
    minCharacterHeight := 4
    minLineWidth := 1 / 2
    minThreadSize := 10
    hollowWallThickness := 12 / 10
    drainHoleDiameter := ⟨2, 4⟩ }

/-- The three result severities (`"error" | "warning" | "info"`). -/
inductive Severity where
  | error
  | warning
  | info
deriving DecidableEq, Repr

/-- One validation result.  The `severity` field is optional in the source
interface (`severity?:`), hence `Option`; the `message`/`details` display
strings are omitted (see the file header). -/
structure ValidationResult where
  name : String
  passed : Bool
  severity : Option Severity
deriving DecidableEq, Repr

open Classical in
/-- `validateModel`: the pure validation engine.  Twelve checks, pushed
unconditionally in source order. -/
noncomputable def validateModel (data : ModelData) : List ValidationResult :=
  let length := data.dimensions.length
  let width := data.dimensions.width
  let height := data.dimensions.height
  -- 1. Dimensioni massime
  let withinDimensions :=
    length ≤ GUIDELINES.maxDimensions.length ∧
    width ≤ GUIDELINES.maxDimensions.width ∧
    height ≤ GUIDELINES.maxDimensions.height
  -- 3. Aspect ratio (sorted descending by the `(a, b) => b - a` comparator)
  let dims := ([length, width, height]).mergeSort (fun a b => decide (b ≤ a))
  let aspectRatio := dims.getD 0 0 / dims.getD 2 0
  let aspectOk := aspectRatio ≤ GUIDELINES.aspectRatioMax
  let aspectRecommended := aspectRatio ≤ GUIDELINES.aspectRatioRecommended
  -- 4. Spigoli e raccordi
  let edgeOk := data.edgeAnalysis.sharpEdges = 0 ∧
    (data.edgeAnalysis.estimatedMinCurvatureRadius = 0 ∨
     (GUIDELINES.minCurvatureRadius : ℝ) ≤
       data.edgeAnalysis.estimatedMinCurvatureRadius)
  let tJunctionOk := data.edgeAnalysis.tJunctionCount = 0 ∨
    (GUIDELINES.minTJunctionRadius : ℝ) ≤
      data.edgeAnalysis.estimatedMinCurvatureRadius
  -- 5. Cavità e fori ciechi
  let cavityOk := data.cavityAnalysis.potentialCavities = 0 ∨
    (data.cavityAnalysis.estimatedHoleDepths = [] ∨
     ∀ d ∈ data.cavityAnalysis.estimatedHoleDepths,
       GUIDELINES.minCavityWidth ≤ d)
  -- 6. Canali aperti (the `1–3 mm` / `3–5 mm` bands are inline literals in
  -- the source, as here; `depths[i] || 0` is `getD i 0`)
  let channelOk := 0 < data.channelAnalysis.potentialChannels →
    ∀ pr ∈ data.channelAnalysis.estimatedDiameters.enum,
      ¬(1 ≤ pr.2 ∧ pr.2 ≤ 3 ∧
        10 < data.channelAnalysis.estimatedDepths.getD pr.1 0) ∧
      ¬(3 < pr.2 ∧ pr.2 ≤ 5 ∧
        30 < data.channelAnalysis.estimatedDepths.getD pr.1 0)
  -- 7. Rilievi e incisioni
  let featureOk := data.surfaceFeatures.minFeatureWidth = 0 ∨
    (GUIDELINES.minLineWidth : ℝ) ≤ data.surfaceFeatures.minFeatureWidth
  -- 8. Spessore parete
  let wallOk := (GUIDELINES.wallThickness.min : ℝ) ≤
      data.wallThickness.minThickness ∧
    data.wallThickness.maxThickness ≤ (GUIDELINES.wallThickness.max : ℝ)
  -- 11. Oggetti cavi
  let hollowOk := (GUIDELINES.hollowWallThickness : ℝ) ≤
    data.wallThickness.minThickness
  [ { name := "Dimensioni Massime"
      passed := decide withinDimensions
      severity := some (if withinDimensions then .info else .error) },
    { name := "Tolleranze Applicabili"
      passed := true
      severity := some .info },
    { name := "Aspect Ratio"
      passed := decide aspectOk
      severity := some (if aspectOk then
        (if aspectRecommended then .info else .warning) else .error) },
    { name := "Spigoli e Raccordi"
      passed := decide (edgeOk ∧ tJunctionOk)
      severity := some (if edgeOk ∧ tJunctionOk then .info else .warning) },
    { name := "Cavit√† e Fori Ciechi"
      passed := decide cavityOk
      severity := some (if cavityOk then .info else .warning) },
    { name := "Canali Aperti"
      passed := decide channelOk
      severity := some (if channelOk then .info else .warning) },
    { name := "Rilievi e Incisioni"
      passed := decide featureOk
      severity := some (if featureOk then .info else .warning) },
    { name := "Spessore Parete"
      passed := decide wallOk
      severity := some (if wallOk then .info
        else if data.wallThickness.minThickness <
          (GUIDELINES.wallThickness.min : ℝ) then .error else .warning) },
    { name := "Base di Appoggio"
      passed := data.geometricComplexity.hasFlatBase
      severity := some (if data.geometricComplexity.hasFlatBase
        then .info else .warning) },
    { name := "Filettature"
      passed := true
      severity := some .info },
    { name := "Oggetti Cavi"
      passed := decide hollowOk
      severity := some (if hollowOk then .info else .warning) },
    { name := "Parti Concatenate"
      passed := true
      severity := some .info } ]

/-! ## Claims -/

/-- The fixed check-name list of the validation engine, in source order. -/
def checkNames : List String :=
  ["Dimensioni Massime", "Tolleranze Applicabili", "Aspect Ratio",
   "Spigoli e Raccordi", "Cavit√† e Fori Ciechi", "Canali Aperti",
   "Rilievi e Incisioni", "Spessore Parete", "Base di Appoggio",
   "Filettature", "Oggetti Cavi", "Parti Concatenate"]

/-- Claim C2: for every `ModelData` input, `validateModel` returns the same
12 checks with the same names in the same fixed order, regardless of the
metric values — no check is ever omitted. -/
theorem claim_C2_fixed_check_list (data : ModelData) :
    (validateModel data).map (fun r => r.name) = checkNames ∧
    (validateModel data).length = 12 :=
  ⟨rfl, rfl⟩

/-- Claim C1 (code-bug evidence): the analysis entry point performs no
input validation.  Applied to the empty point sequence — a malformed input
per the spec — it does not fail: it runs the whole pipeline and returns a
complete `ModelData` bundle (degenerate metrics included), on which the
validation engine happily produces its 12 results. -/
theorem claim_C1_no_fail_fast_on_empty (rand : ℕ → ℕ) :
    (analyzeSTLGeometry rand []).triangleCount = 0 ∧
    (analyzeSTLGeometry rand []).vertexCount = 0 ∧
    (analyzeSTLGeometry rand []).volume = 0 ∧
    (validateModel (analyzeSTLGeometry rand [])).length = 12 :=
  ⟨rfl, rfl, rfl, rfl⟩

/-- Claim C6: if the mesh's length dimension is 60 mm (over the 50 mm
maximum), the first check, "Dimensioni Massime", reports `passed = false`
with severity `error`, whatever the other metrics are. -/
theorem claim_C6_oversize_dimension_fails (data : ModelData)
    (h : data.dimensions.length = 60) :
    (validateModel data).head? =
      some ⟨"Dimensioni Massime", false, some Severity.error⟩ := by
  have hw : ¬(data.dimensions.length ≤ GUIDELINES.maxDimensions.length ∧
      data.dimensions.width ≤ GUIDELINES.maxDimensions.width ∧
      data.dimensions.height ≤ GUIDELINES.maxDimensions.height) := by
    rw [h]
    rintro ⟨h1, -, -⟩
    norm_num [GUIDELINES] at h1
  simp only [validateModel, List.head?]
  rw [if_neg hw, decide_eq_false hw]

/-- A concrete `ModelData` whose length dimension is 60 mm. -/
def mdata60 : ModelData :=
  { dimensions := ⟨60, 10, 10⟩
    volume := 0
    surfaceArea := 0
    triangleCount := 0
    vertexCount := 0
    edgeCount := 0
    boundingBox := none
    normalDistribution := ⟨0, 0, 0⟩
    edgeAnalysis := ⟨0, 0, [], 0, 0⟩
    cavityAnalysis := ⟨0, 0, [], 0, 0⟩
    channelAnalysis := ⟨0, [], [], 0, 0⟩
    surfaceFeatures := ⟨[], 0, 0, 0, 0⟩
    wallThickness := ⟨0, 0, 0, [], 0⟩
    geometricComplexity := ⟨0, 0, 1, 0, false, 0, none⟩ }

theorem claim_C6_witness :
    mdata60.dimensions.length = 60 ∧
    (validateModel mdata60).head? =
      some ⟨"Dimensioni Massime", false, some Severity.error⟩ :=
  ⟨rfl, claim_C6_oversize_dimension_fails mdata60 rfl⟩

/-- Claim C7: the channel analyzer never detects a curved channel — its
`curvedChannels` output is 0 on every input — and whenever the
straight-vs-curved classification runs (more than 10 tubular samples) it
resolves to "straight" (`straightChannels = 1`), because the
`normalVariance` array it branches on is never populated. -/
theorem claim_C7_curved_channels_never_detected (p : List Vec3)
    (faceNormals : List RVec3) (boundingBox : Box) :
    (analyzeChannels p faceNormals boundingBox).curvedChannels = 0 ∧
    (analyzeChannels p faceNormals boundingBox).straightChannels =
      (if 10 < tubularRegions p faceNormals then 1 else 0) := by
  constructor <;> simp [analyzeChannels]

/-- Claim C10: every validation result carries a defined severity
(`error`, `warning` or `info`), and a result at severity `error` always has
`passed = false`. -/
theorem claim_C10_error_implies_failed (data : ModelData)
    (r : ValidationResult) (hr : r ∈ validateModel data) :
    r.severity ≠ none ∧
    (r.severity = some Severity.error → r.passed = false) := by
  simp only [validateModel, List.mem_cons, List.not_mem_nil, or_false] at hr
  rcases hr with rfl | rfl | rfl | rfl | rfl | rfl | rfl | rfl | rfl | rfl | rfl | rfl <;>
    refine ⟨by simp, fun hs => ?_⟩ <;>
    first
      | (split_ifs at hs with h1 h2 <;> simp_all)
      | simp_all

theorem claim_C10_witness :
    (⟨"Filettature", true, some Severity.info⟩ : ValidationResult) ∈
      validateModel mdata60 ∧
    ((⟨"Filettature", true, some Severity.info⟩ :
        ValidationResult).severity ≠ none ∧
     ((⟨"Filettature", true, some Severity.info⟩ :
        ValidationResult).severity = some Severity.error →
      (⟨"Filettature", true, some Severity.info⟩ :
        ValidationResult).passed = false)) :=
  ⟨by simp [validateModel],
   claim_C10_error_implies_failed mdata60 _ (by simp [validateModel])⟩

/-- A two-triangle soup sharing the edge A–B, traversed as (A, B) by the
first triangle and as (B, A) by the second. -/
def soupShared : List Vec3 :=
  [⟨0, 0, 0⟩, ⟨1, 0, 0⟩, ⟨0, 1, 0⟩,
   ⟨1, 0, 0⟩, ⟨0, 0, 0⟩, ⟨1, 1, 0⟩]

unseal Rat.mul Rat.add Rat.sub Rat.inv Rat.ofScientific in
/-- Claim C8: the edge key is order-independent — `makeEdgeKey A B` always
equals `makeEdgeKey B A` — and consequently the A–B edge shared by two
triangles that traverse it in opposite orders is stored once in the
adjacency map, with incident-face list `[0, 1]` (count 2), not as two
boundary edges. -/
theorem claim_C8_edge_key_order_independent :
    (∀ a b : Vec3, makeEdgeKey a b = makeEdgeKey b a) ∧
    lookupEdge (buildEdgeMap soupShared) (makeEdgeKey ⟨0, 0, 0⟩ ⟨1, 0, 0⟩) =
      some ⟨[0, 1], (⟨0, 0, 0⟩, ⟨1, 0, 0⟩)⟩ := by
  constructor
  · intro a b
    unfold makeEdgeKey
    by_cases h1 : (coordKey a).data < (coordKey b).data
    · rw [if_pos h1, if_neg (asymm h1)]
    · by_cases h2 : (coordKey b).data < (coordKey a).data
      · rw [if_neg h1, if_pos h2]
      · have hd : (coordKey a).data = (coordKey b).data :=
          le_antisymm (not_lt.mp h2) (not_lt.mp h1)
        have hab : coordKey a = coordKey b := by
          cases hc1 : coordKey a
          cases hc2 : coordKey b
          rw [hc1, hc2] at hd
          exact congrArg String.mk (by simpa using hd)
        rw [hab]
  · decide

/-- Claim C9: the face-normal computation is total — a degenerate triangle
(zero cross product) yields the *zero vector*, not an error — and the zero
normal is harmless downstream: its dot product with anything is 0, so the
edge analyzer computes a dihedral angle of exactly 90° for it, which is not
`< 90` and therefore never counts as sharp (and never feeds the radius
formula), and the 0.7-threshold cavity test never fires on it. -/
theorem claim_C9_degenerate_normal_is_zero (p : List Vec3) (i : ℕ)
    (h : ((getTri p i).2.1.sub (getTri p i).1).cross
          ((getTri p i).2.2.sub (getTri p i).1) = qzero) :
    (calculateFaceNormals p).getD i rzero = rzero ∧
    (∀ n : RVec3, rzero.dot n = 0) ∧
    (∀ n : RVec3, dihedralAngle rzero n = 90) := by
  have hdot : ∀ n : RVec3, rzero.dot n = 0 := by
    intro n
    simp [RVec3.dot, rzero]
  have hzn : (qzero.toR).normalize = rzero := by
    have h0 : qzero.toR = rzero := by
      simp [Vec3.toR, qzero, rzero]
    rw [h0]
    unfold RVec3.normalize RVec3.length
    simp [rzero, RVec3.divScalar]
  refine ⟨?_, hdot, ?_⟩
  · unfold calculateFaceNormals
    rcases lt_or_ge i (triCount p) with hi | hi
    · rw [List.getD_eq_getElem?_getD, List.getElem?_map,
        List.getElem?_range hi]
      simp only [Option.map_some', Option.getD_some]
      rw [h]
      exact hzn
    · rw [List.getD_eq_getElem?_getD, List.getElem?_map,
        List.getElem?_eq_none (by simpa using hi)]
      rfl
  · intro n
    unfold dihedralAngle
    rw [hdot n]
    have hc : min 1 (max (-1 : ℝ) 0) = 0 := by norm_num
    rw [hc, Real.arccos_zero]
    have hp : Real.pi / 2 * (180 / Real.pi) = 90 := by
      field_simp
      ring
    rw [hp]
    norm_num

/-- A degenerate (collinear) one-triangle soup. -/
def soupDegen : List Vec3 := [⟨0, 0, 0⟩, ⟨1, 0, 0⟩, ⟨2, 0, 0⟩]

unseal Rat.mul Rat.add Rat.sub Rat.inv Rat.ofScientific in
theorem claim_C9_witness :
    ((getTri soupDegen 0).2.1.sub (getTri soupDegen 0).1).cross
        ((getTri soupDegen 0).2.2.sub (getTri soupDegen 0).1) = qzero ∧
    ((calculateFaceNormals soupDegen).getD 0 rzero = rzero ∧
     (∀ n : RVec3, rzero.dot n = 0) ∧
     (∀ n : RVec3, dihedralAngle rzero n = 90)) :=
  ⟨by decide, claim_C9_degenerate_normal_is_zero soupDegen 0 (by decide)⟩

/-! ### Claim C4: normal-direction distribution -/

/-- The unit normal the bulk-metrics loop adds into `normalSum` at buffer
index `i`: `normalize((pC - pB) × (pA - pB))`. -/
noncomputable def bulkNormal (p : List Vec3) (i : ℕ) : RVec3 :=
  let pA := p.getD i qzero
  let pB := p.getD (i + 1) qzero
  let pC := p.getD (i + 2) qzero
  (((pC.sub pB).cross (pA.sub pB)).toR).normalize

/-- Stated from the spec words of claim C4: "mean over all triangles of the
absolute value of that axis's per-triangle unit-normal component", i.e. the
absolute value is taken *inside* the sum.  This is the comparison target,
not the source translation. -/
noncomputable def specNormalDistribution (p : List Vec3) : NormalDistribution :=
  ⟨((strideRange p.length 3).map (fun i => |(bulkNormal p i).x|)).sum /
      triCount p,
   ((strideRange p.length 3).map (fun i => |(bulkNormal p i).y|)).sum /
      triCount p,
   ((strideRange p.length 3).map (fun i => |(bulkNormal p i).z|)).sum /
      triCount p⟩

theorem bulkFold_normalSum (p : List Vec3) (l : List ℕ) (acc : BulkAccum) :
    (l.foldl (bulkStep p) acc).normalSum =
      l.foldl (fun s i => s.add (bulkNormal p i)) acc.normalSum := by
  induction l generalizing acc with
  | nil => rfl
  | cons a l ih =>
    rw [List.foldl_cons, ih, List.foldl_cons]
    rfl

theorem foldl_add_proj (f : RVec3 → ℝ)
    (hf : ∀ a b : RVec3, f (a.add b) = f a + f b) (v : ℕ → RVec3)
    (l : List ℕ) (s0 : RVec3) :
    f (l.foldl (fun s i => s.add (v i)) s0) = f s0 + (l.map (fun i => f (v i))).sum := by
  induction l generalizing s0 with
  | nil => simp
  | cons a l ih =>
    rw [List.foldl_cons, ih, List.map_cons, List.sum_cons, hf]
    ring

/-- Claim C4, amended: each component of the reported normal distribution
is the absolute value of the *sum* of the per-triangle unit-normal
components of that axis, divided by the triangle count — the absolute value
is applied after summation, not to each term. -/
theorem claim_C4_abs_after_sum (rand : ℕ → ℕ) (p : List Vec3) :
    (analyzeSTLGeometry rand p).normalDistribution.x =
      |((strideRange p.length 3).map (fun i => (bulkNormal p i).x)).sum| /
        triCount p ∧
    (analyzeSTLGeometry rand p).normalDistribution.y =
      |((strideRange p.length 3).map (fun i => (bulkNormal p i).y)).sum| /
        triCount p ∧
    (analyzeSTLGeometry rand p).normalDistribution.z =
      |((strideRange p.length 3).map (fun i => (bulkNormal p i).z)).sum| /
        triCount p := by
  have hsum := bulkFold_normalSum p (strideRange p.length 3) ⟨0, 0, rzero⟩
  have hx := foldl_add_proj (fun v => v.x) (fun a b => rfl) (bulkNormal p)
    (strideRange p.length 3) rzero
  have hy := foldl_add_proj (fun v => v.y) (fun a b => rfl) (bulkNormal p)
    (strideRange p.length 3) rzero
  have hz := foldl_add_proj (fun v => v.z) (fun a b => rfl) (bulkNormal p)
    (strideRange p.length 3) rzero
  refine ⟨?_, ?_, ?_⟩
  · show |((strideRange p.length 3).foldl (bulkStep p)
        ⟨0, 0, rzero⟩).normalSum.x| / ((triCount p : ℕ) : ℝ) = _
    rw [hsum, hx]
    simp [rzero]
  · show |((strideRange p.length 3).foldl (bulkStep p)
        ⟨0, 0, rzero⟩).normalSum.y| / ((triCount p : ℕ) : ℝ) = _
    rw [hsum, hy]
    simp [rzero]
  · show |((strideRange p.length 3).foldl (bulkStep p)
        ⟨0, 0, rzero⟩).normalSum.z| / ((triCount p : ℕ) : ℝ) = _
    rw [hsum, hz]
    simp [rzero]

/-- Two coincident triangles with opposite windings: their unit normals are
`(0,0,1)` and `(0,0,-1)`, which cancel in the code's normal *sum*. -/
def soupFlip : List Vec3 :=
  [⟨0, 0, 0⟩, ⟨1, 0, 0⟩, ⟨0, 1, 0⟩,
   ⟨0, 0, 0⟩, ⟨0, 1, 0⟩, ⟨1, 0, 0⟩]

theorem normalize_z_unit (v : Vec3) (hv : v = ⟨0, 0, 1⟩ ∨ v = ⟨0, 0, -1⟩) :
    (v.toR).normalize.z = (v.z : ℝ) := by
  rcases hv with rfl | rfl
  · have ht : (Vec3.toR ⟨0, 0, 1⟩) = (⟨0, 0, 1⟩ : RVec3) := by
      simp [Vec3.toR]
    rw [ht]
    unfold RVec3.normalize RVec3.length
    norm_num [RVec3.divScalar]
  · have ht : (Vec3.toR ⟨0, 0, -1⟩) = (⟨0, 0, -1⟩ : RVec3) := by
      simp [Vec3.toR]
    rw [ht]
    unfold RVec3.normalize RVec3.length
    norm_num [RVec3.divScalar]

unseal Rat.mul Rat.add Rat.sub Rat.inv Rat.ofScientific in
/-- Claim C4 counterexample: on two coincident triangles with opposite
windings the code reports a `z` normal-distribution component of 0 (the
opposite normals cancel in the sum before the absolute value is taken),
while the claimed "mean of absolute per-axis components" is 1. -/
theorem claim_C4_counterexample :
    (analyzeSTLGeometry (fun _ => 0) soupFlip).normalDistribution.z = 0 ∧
    (specNormalDistribution soupFlip).z = 1 := by
  have hb0 : (bulkNormal soupFlip 0).z = 1 := by
    have hc : ((soupFlip.getD (0 + 2) qzero).sub (soupFlip.getD (0 + 1) qzero)).cross
        ((soupFlip.getD 0 qzero).sub (soupFlip.getD (0 + 1) qzero)) =
          (⟨0, 0, 1⟩ : Vec3) := by decide
    show (((soupFlip.getD (0 + 2) qzero).sub (soupFlip.getD (0 + 1) qzero)).cross
        ((soupFlip.getD 0 qzero).sub (soupFlip.getD (0 + 1) qzero))).toR.normalize.z = 1
    rw [hc]
    simpa using normalize_z_unit ⟨0, 0, 1⟩ (Or.inl rfl)
  have hb3 : (bulkNormal soupFlip 3).z = -1 := by
    have hc : ((soupFlip.getD (3 + 2) qzero).sub (soupFlip.getD (3 + 1) qzero)).cross
        ((soupFlip.getD 3 qzero).sub (soupFlip.getD (3 + 1) qzero)) =
          (⟨0, 0, -1⟩ : Vec3) := by decide
    show (((soupFlip.getD (3 + 2) qzero).sub (soupFlip.getD (3 + 1) qzero)).cross
        ((soupFlip.getD 3 qzero).sub (soupFlip.getD (3 + 1) qzero))).toR.normalize.z = -1
    rw [hc]
    simpa using normalize_z_unit ⟨0, 0, -1⟩ (Or.inr rfl)
  have hsr : strideRange soupFlip.length 3 = [0, 3] := by decide
  have hsum := bulkFold_normalSum soupFlip (strideRange soupFlip.length 3) ⟨0, 0, rzero⟩
  have hz := foldl_add_proj (fun v => v.z) (fun a b => rfl) (bulkNormal soupFlip)
    (strideRange soupFlip.length 3) rzero
  constructor
  · show |((strideRange soupFlip.length 3).foldl (bulkStep soupFlip)
        ⟨0, 0, rzero⟩).normalSum.z| / ((triCount soupFlip : ℕ) : ℝ) = 0
    rw [hsum, hz, hsr]
    simp [rzero, hb0, hb3]
  · show ((strideRange soupFlip.length 3).map
        (fun i => |(bulkNormal soupFlip i).z|)).sum / ((triCount soupFlip : ℕ) : ℝ) = 1
    rw [hsr]
    simp only [List.map_cons, List.map_nil, List.sum_cons, List.sum_nil, hb0, hb3]
    norm_num [triCount, soupFlip]

/-! ### Claim C5: cavity detection vs. hole-depth emission -/

/-- Claim C5, amended: the potential-cavity count is the concave-region
count divided by 10 (integer floor), but the hole-depth list is non-empty
— holding the single value `0.3 ×` the smallest bounding-box dimension —
exactly when at least one concave-region *triangle* was detected, which can
happen while the reported cavity count is still 0 (1–9 concave
triangles). -/
theorem claim_C5_depths_track_concave_not_cavities (p : List Vec3)
    (faceNormals : List RVec3) (boundingBox : Box) :
    (analyzeCavities p faceNormals boundingBox).potentialCavities =
      concaveRegions p faceNormals boundingBox / 10 ∧
    ((analyzeCavities p faceNormals boundingBox).estimatedHoleDepths ≠ [] ↔
      0 < concaveRegions p faceNormals boundingBox) ∧
    (analyzeCavities p faceNormals boundingBox).estimatedHoleDepths =
      (if 0 < concaveRegions p faceNormals boundingBox then
        [minBBDim boundingBox * (3 / 10)] else []) := by
  refine ⟨rfl, ?_, rfl⟩
  by_cases h : 0 < concaveRegions p faceNormals boundingBox
  · simp [analyzeCavities, h]
  · simp [analyzeCavities, h]

/-- Two horizontal triangles facing each other (normals `(0,0,1)` and
`(0,0,-1)`, both pointing at the bounding-box center): both count as
concave regions, yet `⌊2 / 10⌋ = 0` cavities are reported. -/
def soupCavity : List Vec3 :=
  [⟨0, 0, 0⟩, ⟨10, 0, 0⟩, ⟨0, 10, 0⟩,
   ⟨0, 0, 10⟩, ⟨0, 10, 10⟩, ⟨10, 0, 10⟩]

theorem normalize_z_only (c : ℝ) (hc : c ≠ 0) :
    RVec3.normalize ⟨0, 0, c⟩ = ⟨0, 0, c / |c|⟩ := by
  unfold RVec3.normalize RVec3.length
  have h1 : ((0:ℝ) * 0 + 0 * 0 + c * c) = c ^ 2 := by ring
  rw [h1, Real.sqrt_sq_eq_abs, if_neg (abs_ne_zero.mpr hc)]
  simp [RVec3.divScalar]

unseal Rat.mul Rat.add Rat.sub Rat.inv Rat.ofScientific in
/-- Claim C5 counterexample: on two opposite-facing horizontal triangles
both triangles pass the concave-region test, so the hole-depth list is
non-empty, yet the reported potential-cavity count is `⌊2/10⌋ = 0` — the
depth list does not track cavity detection. -/
theorem claim_C5_counterexample :
    (analyzeCavities soupCavity (calculateFaceNormals soupCavity)
      (computeBB soupCavity)).potentialCavities = 0 ∧
    (analyzeCavities soupCavity (calculateFaceNormals soupCavity)
      (computeBB soupCavity)).estimatedHoleDepths ≠ [] := by
  have hn0 : (calculateFaceNormals soupCavity).getD 0 rzero = ⟨0, 0, 1⟩ := by
    unfold calculateFaceNormals
    rw [List.getD_eq_getElem?_getD, List.getElem?_map,
      List.getElem?_range (show 0 < triCount soupCavity by decide)]
    simp only [Option.map_some', Option.getD_some]
    show (((getTri soupCavity 0).2.1.sub (getTri soupCavity 0).1).cross
        ((getTri soupCavity 0).2.2.sub (getTri soupCavity 0).1)).toR.normalize =
      (⟨0, 0, 1⟩ : RVec3)
    rw [show ((getTri soupCavity 0).2.1.sub (getTri soupCavity 0).1).cross
        ((getTri soupCavity 0).2.2.sub (getTri soupCavity 0).1) =
          (⟨0, 0, 100⟩ : Vec3) from by decide]
    rw [show (Vec3.toR ⟨0, 0, 100⟩) = (⟨0, 0, (100:ℝ)⟩ : RVec3) from by
      simp [Vec3.toR]]
    rw [normalize_z_only 100 (by norm_num)]
    norm_num
  have hn1 : (calculateFaceNormals soupCavity).getD 1 rzero = ⟨0, 0, -1⟩ := by
    unfold calculateFaceNormals
    rw [List.getD_eq_getElem?_getD, List.getElem?_map,
      List.getElem?_range (show 1 < triCount soupCavity by decide)]
    simp only [Option.map_some', Option.getD_some]
    show (((getTri soupCavity 1).2.1.sub (getTri soupCavity 1).1).cross
        ((getTri soupCavity 1).2.2.sub (getTri soupCavity 1).1)).toR.normalize =
      (⟨0, 0, -1⟩ : RVec3)
    rw [show ((getTri soupCavity 1).2.1.sub (getTri soupCavity 1).1).cross
        ((getTri soupCavity 1).2.2.sub (getTri soupCavity 1).1) =
          (⟨0, 0, -100⟩ : Vec3) from by decide]
    rw [show (Vec3.toR ⟨0, 0, -100⟩) = (⟨0, 0, (-100:ℝ)⟩ : RVec3) from by
      simp [Vec3.toR]]
    rw [normalize_z_only (-100) (by norm_num)]
    norm_num
  have hpos : (0:ℝ) < Real.sqrt (275 / 9) := Real.sqrt_pos.mpr (by norm_num)
  have hL : Real.sqrt (275 / 9) < 50 / 7 :=
    (Real.sqrt_lt' (by norm_num)).mpr (by norm_num)
  have hbound : (7:ℝ) / 10 < 5 / Real.sqrt (275 / 9) := by
    rw [div_lt_div_iff (by norm_num) hpos]
    nlinarith [hL]
  have h0 : isConcave soupCavity (calculateFaceNormals soupCavity)
      (computeBB soupCavity) 0 := by
    unfold isConcave
    rw [hn0]
    rw [show ((bbCenter (computeBB soupCavity)).sub (centroid soupCavity 0)) =
      (⟨5/3, 5/3, 5⟩ : Vec3) from by decide]
    rw [show (Vec3.toR ⟨5/3, 5/3, 5⟩) = (⟨5/3, 5/3, (5:ℝ)⟩ : RVec3) from by
      simp [Vec3.toR]]
    unfold RVec3.normalize RVec3.length
    rw [show ((5/3:ℝ) * (5/3) + (5/3) * (5/3) + 5 * 5) = 275 / 9 from by norm_num]
    rw [if_neg (ne_of_gt hpos)]
    simp only [RVec3.divScalar, RVec3.dot]
    rw [gt_iff_lt]
    ring_nf
    ring_nf at hbound
    linarith [hbound]
  have h1 : isConcave soupCavity (calculateFaceNormals soupCavity)
      (computeBB soupCavity) 1 := by
    unfold isConcave
    rw [hn1]
    rw [show ((bbCenter (computeBB soupCavity)).sub (centroid soupCavity 1)) =
      (⟨5/3, 5/3, -5⟩ : Vec3) from by decide]
    rw [show (Vec3.toR ⟨5/3, 5/3, -5⟩) = (⟨5/3, 5/3, (-5:ℝ)⟩ : RVec3) from by
      simp [Vec3.toR]]
    unfold RVec3.normalize RVec3.length
    rw [show ((5/3:ℝ) * (5/3) + (5/3) * (5/3) + -5 * -5) = 275 / 9 from by norm_num]
    rw [if_neg (ne_of_gt hpos)]
    simp only [RVec3.divScalar, RVec3.dot]
    rw [gt_iff_lt]
    ring_nf
    ring_nf at hbound
    linarith [hbound]
  have hcr : concaveRegions soupCavity (calculateFaceNormals soupCavity)
      (computeBB soupCavity) = 2 := by
    unfold concaveRegions
    rw [show List.range (triCount soupCavity) = [0, 1] from by decide]
    simp [List.countP_cons, h0, h1]
  constructor
  · show concaveRegions soupCavity (calculateFaceNormals soupCavity)
      (computeBB soupCavity) / 10 = 0
    rw [hcr]
  · show (if 0 < concaveRegions soupCavity (calculateFaceNormals soupCavity)
        (computeBB soupCavity)
      then [minBBDim (computeBB soupCavity) * (3 / 10)] else []) ≠ []
    rw [hcr]
    simp

/-! ### Claim C3: edge analyzer characterization -/

open Classical in
/-- The sharpness condition of the claim: exactly 2 incident faces and a
dihedral angle below 90°. -/
noncomputable def isSharpEntry (normals : List RVec3) (e : EdgeEntry) : Prop :=
  e.faces.length = 2 ∧ entryAngle normals e < 90

open Classical in
/-- Boolean form of `isSharpEntry` on map entries, for filtering. -/
noncomputable def isSharpB (normals : List RVec3) (e : String × EdgeEntry) :
    Bool :=
  decide (isSharpEntry normals e.2)

/-- Boolean form of the T-junction condition (3 or more incident faces). -/
def isTJB (e : String × EdgeEntry) : Bool := decide (3 ≤ e.2.faces.length)

/-- The sharp entries of the edge map, in map order. -/
noncomputable def sharpEdgeEntries (p : List Vec3) (normals : List RVec3) :
    List (String × EdgeEntry) :=
  (buildEdgeMap p).filter (isSharpB normals)

/-- Minimum of a list of radii with the code's `0` sentinel for "no sharp
edge". -/
noncomputable def specMin : List ℝ → ℝ
  | [] => 0
  | r :: rs => rs.foldl min r

theorem edgeFold_spec (normals : List RVec3)
    (l : List (String × EdgeEntry)) (acc : EdgeAccum) :
    l.foldl (edgeStep normals) acc =
      ⟨acc.sharp + (l.filter (isSharpB normals)).length,
       acc.angles ++ (l.filter (isSharpB normals)).map
         (fun e => entryAngle normals e.2),
       acc.tj + l.countP isTJB,
       ((l.filter (isSharpB normals)).map
         (fun e => entryRadius normals e.2)).foldl optPush acc.minR⟩ := by
  induction l generalizing acc with
  | nil => simp
  | cons e l ih =>
    rw [List.foldl_cons, ih]
    by_cases h2 : e.2.faces.length = 2
    · have h3 : ¬ 3 ≤ e.2.faces.length := by omega
      have htj : isTJB e = false := by
        simp [isTJB, h3]
      by_cases hd : entryAngle normals e.2 < 90
      · have hb : isSharpB normals e = true := by
          simp [isSharpB, isSharpEntry, h2, hd]
        have hstep : edgeStep normals acc e =
            ⟨acc.sharp + 1, acc.angles ++ [entryAngle normals e.2], acc.tj,
              optPush acc.minR (entryRadius normals e.2)⟩ := by
          simp only [edgeStep]
          rw [if_neg h3, if_pos h2, if_pos hd]
        rw [hstep, EdgeAccum.mk.injEq]
        refine ⟨?_, ?_, ?_, ?_⟩
        · simp only [List.filter_cons, hb, if_true, List.length_cons]
          omega
        · simp [List.filter_cons, hb]
        · simp [List.countP_cons, htj]
        · simp [List.filter_cons, hb]
      · have hb : isSharpB normals e = false := by
          simp [isSharpB, isSharpEntry, h2, hd]
        have hstep : edgeStep normals acc e = acc := by
          simp only [edgeStep]
          rw [if_neg h3, if_pos h2, if_neg hd]
        rw [hstep, EdgeAccum.mk.injEq]
        refine ⟨?_, ?_, ?_, ?_⟩
        · simp [List.filter_cons, hb]
        · simp [List.filter_cons, hb]
        · simp [List.countP_cons, htj]
        · simp [List.filter_cons, hb]
    · have hb : isSharpB normals e = false := by
        simp [isSharpB, isSharpEntry, h2]
      by_cases h3 : 3 ≤ e.2.faces.length
      · have htj : isTJB e = true := by
          simp [isTJB, h3]
        have hstep : edgeStep normals acc e =
            ⟨acc.sharp, acc.angles, acc.tj + 1, acc.minR⟩ := by
          simp only [edgeStep]
          rw [if_pos h3, if_neg h2]
        rw [hstep, EdgeAccum.mk.injEq]
        refine ⟨?_, ?_, ?_, ?_⟩
        · simp [List.filter_cons, hb]
        · simp [List.filter_cons, hb]
        · simp only [List.countP_cons, htj, if_true]
          omega
        · simp [List.filter_cons, hb]
      · have htj : isTJB e = false := by
          simp [isTJB, h3]
        have hstep : edgeStep normals acc e = acc := by
          simp only [edgeStep]
          rw [if_neg h3, if_neg h2]
        rw [hstep, EdgeAccum.mk.injEq]
        refine ⟨?_, ?_, ?_, ?_⟩
        · simp [List.filter_cons, hb]
        · simp [List.filter_cons, hb]
        · simp [List.countP_cons, htj]
        · simp [List.filter_cons, hb]

theorem optPush_foldl_some (l : List ℝ) (m : ℝ) :
    l.foldl optPush (some m) = some (l.foldl min m) := by
  induction l generalizing m with
  | nil => rfl
  | cons r rs ih =>
    rw [List.foldl_cons, List.foldl_cons]
    exact ih (min m r)

theorem optPush_foldl_none (l : List ℝ) :
    (l.foldl optPush none).getD 0 = specMin l := by
  cases l with
  | nil => rfl
  | cons r rs =>
    rw [List.foldl_cons, show optPush none r = some r from rfl,
      optPush_foldl_some]
    rfl

/-- Claim C3: on every edge map, the edge analyzer counts as sharp exactly
the 2-face edges whose dihedral angle (`180° - arccos(clamp(n1·n2, -1, 1))`
in degrees, which is the definition of `dihedralAngle`) is below 90°,
records exactly their angles in map order, and reports as
`estimatedMinCurvatureRadius` the minimum of
`edgeLength / (2·sin((90° - dihedral)·π/360))` over those sharp edges
(`entryRadius` is that formula), with sentinel 0 when no sharp edge
exists. -/
theorem claim_C3_edge_analyzer_characterization (p : List Vec3)
    (normals : List RVec3) :
    (analyzeEdges p normals).sharpEdges = (sharpEdgeEntries p normals).length ∧
    (analyzeEdges p normals).sharpEdgeAngles =
      (sharpEdgeEntries p normals).map (fun e => entryAngle normals e.2) ∧
    (analyzeEdges p normals).estimatedMinCurvatureRadius =
      specMin ((sharpEdgeEntries p normals).map
        (fun e => entryRadius normals e.2)) := by
  have hfold := edgeFold_spec normals (buildEdgeMap p) ⟨0, [], 0, none⟩
  refine ⟨?_, ?_, ?_⟩
  · show ((buildEdgeMap p).foldl (edgeStep normals) ⟨0, [], 0, none⟩).sharp = _
    rw [hfold]
    simp [sharpEdgeEntries]
  · show ((buildEdgeMap p).foldl (edgeStep normals) ⟨0, [], 0, none⟩).angles = _
    rw [hfold]
    simp [sharpEdgeEntries]
  · show (((buildEdgeMap p).foldl (edgeStep normals)
      ⟨0, [], 0, none⟩).minR).getD 0 = _
    rw [hfold]
    exact optPush_foldl_none _

/-- The `specMin` value really is the minimum: it is attained and bounds
every radius in the list (supports the reading of claim C3). -/
theorem specMin_is_minimum (l : List ℝ) (hl : l ≠ []) :
    specMin l ∈ l ∧ ∀ x ∈ l, specMin l ≤ x := by
  have key : ∀ (rs : List ℝ) (m : ℝ),
      (rs.foldl min m = m ∨ rs.foldl min m ∈ rs) ∧
      rs.foldl min m ≤ m ∧ ∀ x ∈ rs, rs.foldl min m ≤ x := by
    intro rs
    induction rs with
    | nil => exact fun m => ⟨Or.inl rfl, le_refl m, by simp⟩
    | cons a rs ih =>
      intro m
      obtain ⟨hmem, hle, hall⟩ := ih (min m a)
      rw [List.foldl_cons]
      refine ⟨?_, ?_, ?_⟩
      · rcases hmem with h | h
        · rcases min_cases m a with ⟨hmin, -⟩ | ⟨hmin, -⟩
          · exact Or.inl (h.trans hmin)
          · exact Or.inr (by rw [h, hmin]; exact List.mem_cons_self a rs)
        · exact Or.inr (List.mem_cons_of_mem a h)
      · exact hle.trans (min_le_left m a)
      · intro x hx
        rcases List.mem_cons.mp hx with rfl | hx
        · exact hle.trans (min_le_right m x)
        · exact hall x hx
  cases l with
  | nil => exact absurd rfl hl
  | cons r rs =>
    obtain ⟨hmem, hle, hall⟩ := key rs r
    refine ⟨?_, ?_⟩
    · rcases hmem with h | h
      · rw [show specMin (r :: rs) = rs.foldl min r from rfl, h]
        exact List.mem_cons_self r rs
      · exact List.mem_cons_of_mem r h
    · intro x hx
      rcases List.mem_cons.mp hx with rfl | hx
      · exact hle
      · exact hall x hx
